import Mathlib

/-!
Verification of the aio-site-advisor pipeline against its specification.

Each Python source construct that the claims mention is embedded as an
executable Lean definition, translated directly from the source files:

* `services/html_parser.py`   — heading-tree builder, tokenizer, `parse_html`
* `agents/parser_agent.py`    — `parse_sites_from_serp` and its degenerate fallback
* `agents/keyword_planner_agent.py` — `_fallback_plan`, `_clamp_priority`,
  `_normalize_intent`, `_llm_plan`, `plan_keywords`
* `agents/analyzer_agent.py`  — `analyze_keyword_structures`, `analyze_for_graph`
* `agents/strategist_agent.py`— `build_strategy`
* `services/serp_client.py`   — `fetch_serp_cse`
* `services/crawler.py`       — `fetch_html`
* `app/graph/nodes.py`, `app/graph/lg_workflow.py` — the LangGraph nodes and
  the sequential workflow

External effects (HTTP responses, LLM responses) are passed in explicitly as
environment values; Python exceptions are modelled with `Except`/`Option`.
-/

namespace AioSiteAdvisor

/-! ## Heading tags and nodes (`models/site_models.py`, `services/html_parser.py`) -/

/-- One `h1`..`h6` tag as BeautifulSoup yields it in document order:
its numeric level and its stripped text. -/
structure HeadingTag where
  level : Nat
  text : String
deriving Repr, DecidableEq

/-- `HeadingNode` from `models/site_models.py`: level, text and nested children. -/
inductive HeadingNode where
  | mk (level : Nat) (text : String) (children : List HeadingNode)

/-- Level of a heading node. -/
def HeadingNode.level : HeadingNode → Nat
  | .mk l _ _ => l

/-- Text of a heading node. -/
def HeadingNode.text : HeadingNode → String
  | .mk _ t _ => t

/-- Children of a heading node. -/
def HeadingNode.children : HeadingNode → List HeadingNode
  | .mk _ _ c => c

/-- The flat heading list of `_build_heading_nodes` (html_parser.py lines 17-27):
one childless node per tag, in document order. -/
def _build_heading_nodes (tags : List HeadingTag) : List HeadingNode :=
  tags.map (fun t => .mk t.level t.text [])

/-- An entry of the ancestor stack in `_build_heading_tree`: a node still open,
with the children attached to it so far (in document order).  In the Python
code the stack holds the node objects themselves and mutates their `children`
lists in place; here the children list travels with the stack entry and the
node is closed when it is popped. -/
structure OpenNode where
  level : Nat
  text : String
  children : List HeadingNode

/-- Close an open stack entry into a finished `HeadingNode`. -/
def closeNode (o : OpenNode) : HeadingNode :=
  .mk o.level o.text o.children

/-- Continue popping stack entries whose level is `≥ lvl` (html_parser.py
line 44, `while stack and stack[-1].level >= level`).  `pending` is the node
just closed by the previous pop; it is attached as last child of the next
stack entry, or appended to the roots if the stack runs out. -/
def popGEAux (lvl : Nat) (pending : HeadingNode) :
    List OpenNode → List HeadingNode → List OpenNode × List HeadingNode
  | [], roots => ([], roots ++ [pending])
  | top :: rest, roots =>
    if lvl ≤ top.level then
      popGEAux lvl (closeNode { top with children := top.children ++ [pending] }) rest roots
    else
      ({ top with children := top.children ++ [pending] } :: rest, roots)

/-- Pop all stack entries with level `≥ lvl`, attaching each closed entry to
the entry below it (html_parser.py lines 44-52); a closed entry with nothing
below it becomes a root. -/
def popGE (lvl : Nat) (stack : List OpenNode) (roots : List HeadingNode) :
    List OpenNode × List HeadingNode :=
  match stack with
  | [] => ([], roots)
  | top :: rest =>
    if lvl ≤ top.level then popGEAux lvl (closeNode top) rest roots
    else (top :: rest, roots)

/-- Process one heading tag (body of the `for tag in soup.find_all(...)` loop,
html_parser.py lines 38-54): pop entries with level `≥` the new level, then
push the new node. -/
def insertTag (acc : List OpenNode × List HeadingNode) (t : HeadingTag) :
    List OpenNode × List HeadingNode :=
  let (stack, roots) := popGE t.level acc.1 acc.2
  (⟨t.level, t.text, []⟩ :: stack, roots)

/-- `_build_heading_tree` (html_parser.py lines 30-56): fold the tags through
the stack algorithm, then close every still-open entry.  Closing everything is
popping with a level below any heading level, so it reuses `popGE 0`. -/
def _build_heading_tree (tags : List HeadingTag) : List HeadingNode :=
  let (stack, roots) := tags.foldl insertTag ([], [])
  (popGE 0 stack roots).2

/-- Convenience: tags with the given levels and empty texts. -/
def tagsOfLevels (ls : List Nat) : List HeadingTag :=
  ls.map (fun l => ⟨l, ""⟩)

/-! ## Python value model

JSON values as `json.loads` returns them.  JSON numbers are modelled as
integers (no float appears in any value the claims exercise). -/

/-- A parsed JSON value. -/
inductive JVal where
  | null
  | jint (n : Int)
  | jstr (s : String)
  | jbool (b : Bool)
  | jarr (xs : List JVal)
  | jobj (fields : List (String × JVal))

/-- Python truthiness test (`if not value`) on a JSON value. -/
def falsy : JVal → Bool
  | .null => true
  | .jint n => n = 0
  | .jstr s => s = ""
  | .jbool b => !b
  | .jarr xs => xs.isEmpty
  | .jobj fs => fs.isEmpty

/-- Lookup in an insertion-ordered association list, as a Python dict read. -/
def alistGet {α : Type} (m : List (String × α)) (k : String) : Option α :=
  match m.find? (fun p => p.1 = k) with
  | some p => some p.2
  | none => none

/-- Write into an insertion-ordered association list, as a Python dict write:
an existing key keeps its position, a new key is appended. -/
def alistSet {α : Type} (m : List (String × α)) (k : String) (v : α) :
    List (String × α) :=
  if (m.find? (fun p => p.1 = k)).isSome then
    m.map (fun p => if p.1 = k then (k, v) else p)
  else
    m ++ [(k, v)]

/-- `dict.get(key, default)` on a `JVal` object known to be a `jobj`. -/
def jGetD (fields : List (String × JVal)) (k : String) (dflt : JVal) : JVal :=
  (alistGet fields k).getD dflt

/-- A single-quote character, used when rebuilding Python string formatting. -/
def sq : String :=
  (Char.ofNat 39).toString

mutual

/-- Python `repr` of a JSON value (element form used inside `str(list)`),
modelled without escape processing inside strings. -/
def reprJ : JVal → String
  | .null => "None"
  | .jint n => toString n
  | .jstr s => sq ++ s ++ sq
  | .jbool b => if b then "True" else "False"
  | .jarr xs => "[" ++ String.intercalate ", " (reprJList xs) ++ "]"
  | .jobj fs => "\x7b" ++ String.intercalate ", " (reprJFields fs) ++ "\x7d"

/-- Helper for `reprJ` on array elements. -/
def reprJList : List JVal → List String
  | [] => []
  | x :: xs => reprJ x :: reprJList xs

/-- Helper for `reprJ` on object fields. -/
def reprJFields : List (String × JVal) → List String
  | [] => []
  | (k, v) :: fs => (sq ++ k ++ sq ++ ": " ++ reprJ v) :: reprJFields fs

end

/-- Python `str()` of a JSON value. -/
def pyStr : JVal → String
  | .null => "None"
  | .jint n => toString n
  | .jstr s => s
  | .jbool b => if b then "True" else "False"
  | .jarr xs => reprJ (.jarr xs)
  | .jobj fs => reprJ (.jobj fs)

/-- Whitespace as Python's `str.split()` (no argument) sees it, restricted to
the ASCII whitespace characters. -/
def isPySpace (c : Char) : Bool :=
  c = ' ' || c = '\t' || c = '\n' || c = '\r' || c = (Char.ofNat 11) || c = (Char.ofNat 12)

/-- Tokenizer core shared by the whitespace splitters: `cur` is the current
token, reversed; whitespace closes it. -/
def wsTokens (cur : List Char) : List Char → List String
  | [] => if cur.isEmpty then [] else [⟨cur.reverse⟩]
  | c :: cs =>
    if isPySpace c then
      if cur.isEmpty then wsTokens [] cs else ⟨cur.reverse⟩ :: wsTokens [] cs
    else wsTokens (c :: cur) cs

/-- Python `str.split()` with no argument: split on whitespace runs, dropping
empty pieces. -/
def pySplitWs (s : String) : List String :=
  wsTokens [] s.data

/-- Python `int(str)` on a trimmed decimal literal with optional sign; any
other string raises `ValueError`, modelled as `none` (underscore digit
separators are not modelled). -/
def parseIntAscii (s : String) : Option Int :=
  let t := s.trim
  let core := if t.startsWith "-" ∨ t.startsWith "+" then t.drop 1 else t
  if core ≠ "" ∧ core.all Char.isDigit then
    some (if t.startsWith "-" then -(core.toNat!) else (core.toNat! : Int))
  else
    none

/-- Substring test on character lists, scanning left to right. -/
def listContainsSub (sub : List Char) : List Char → Bool
  | [] => sub.isEmpty
  | c :: cs => sub.isPrefixOf (c :: cs) || listContainsSub sub cs

/-- Python's `needle in hay` on strings. -/
def strContains (hay needle : String) : Bool :=
  listContainsSub needle.data hay.data

/-- Count of non-overlapping occurrences of `d :: ds` in a character list,
scanning left to right as Python's `str.count` does. -/
def countOcc (d : Char) (ds : List Char) : List Char → Nat
  | [] => 0
  | c :: cs =>
    if (d :: ds).isPrefixOf (c :: cs) then 1 + countOcc d ds (cs.drop ds.length)
    else countOcc d ds cs
termination_by l => l.length
decreasing_by
  · simp [List.length_drop]; omega
  · simp

/-- Python `text.count(sub)`: an empty pattern counts `len(text) + 1`. -/
def pyCountSub (text sub : String) : Nat :=
  match sub.data with
  | [] => text.length + 1
  | d :: ds => countOcc d ds text.data

/-! ## Keyword models (`models/keyword_models.py`) -/

/-- `KeywordItem`: a normalized candidate term.  `intent` carries one of the
four literal strings of `IntentType`; `priority` is the pydantic-validated
integer in `[1, 5]`. -/
structure KeywordItem where
  keyword : String
  intent : String
  category : Option String
  priority : Int
  reason : Option String
deriving Repr, DecidableEq

/-- `KeywordPlan`: the seed keyword plus its insertion-ordered items. -/
structure KeywordPlan where
  seed_keyword : String
  items : List KeywordItem
deriving Repr, DecidableEq

/-- Stable insertion used to model Python's stable `sorted(..., reverse=True)`:
an element is placed before every later element of equal priority. -/
def insertByPriorityDesc (x : KeywordItem) : List KeywordItem → List KeywordItem
  | [] => [x]
  | y :: ys => if x.priority < y.priority then y :: insertByPriorityDesc x ys else x :: y :: ys

/-- Stable descending sort by `priority`, matching
`sorted(items, key=lambda k: k.priority, reverse=True)`. -/
def sortByPriorityDesc (l : List KeywordItem) : List KeywordItem :=
  l.foldr insertByPriorityDesc []

/-- `KeywordPlan.top_keywords` (keyword_models.py lines 79-87): the first
`limit` items of the stable priority-descending order. -/
def KeywordPlan.top_keywords (p : KeywordPlan) (limit : Nat) : List KeywordItem :=
  (sortByPriorityDesc p.items).take limit

/-! ## Keyword planner (`agents/keyword_planner_agent.py`) -/

/-- `MAX_ITEMS_DEFAULT` (keyword_planner_agent.py line 39). -/
def MAX_ITEMS_DEFAULT : Nat := 12

/-- `MAX_REASON_LEN` (keyword_planner_agent.py line 41). -/
def MAX_REASON_LEN : Nat := 30

/-- `_fallback_plan` (keyword_planner_agent.py lines 48-127): the fixed
topic-derived catalog of ten items. -/
def _fallback_plan (seed_keyword : String) : KeywordPlan :=
  { seed_keyword := seed_keyword
    items :=
      [ ⟨seed_keyword, "KNOW", some "基礎・概要", 5, some "軸キーワードのため最優先"⟩,
        ⟨seed_keyword ++ " とは", "KNOW", some "基礎・概要", 5, some "定義・概要コンテンツが必要"⟩,
        ⟨seed_keyword ++ " 種類", "KNOW", some "基礎・概要", 4, some "製品ラインナップやバリエーションの解説用"⟩,
        ⟨seed_keyword ++ " 比較", "COMPARE", some "比較・選定", 4, some "他方式・他社との比較コンテンツ向け"⟩,
        ⟨seed_keyword ++ " 事例", "KNOW", some "導入事例", 4, some "E-E-A-T強化・用途イメージ訴求に有効"⟩,
        ⟨seed_keyword ++ " 設計", "KNOW", some "設計・ノウハウ", 3, some "設計者向けの技術情報・設計Tips向け"⟩,
        ⟨seed_keyword ++ " 強度 計算", "KNOW", some "設計・ノウハウ", 3, some "技術系ニーズ（計算・条件検討）向け"⟩,
        ⟨seed_keyword ++ " 価格", "BUY", some "購入・見積", 3, some "価格・コスト比較ニーズに対応"⟩,
        ⟨seed_keyword ++ " 見積", "BUY", some "購入・見積", 3, some "BtoB調達担当向けの見積・リード獲得用"⟩,
        ⟨seed_keyword ++ " メーカー", "NAVIGATIONAL", some "ナビゲーション", 2, some "メーカー名・ブランド名でのナビゲーションニーズ向け"⟩ ] }

/-- `_clamp_priority` (keyword_planner_agent.py lines 134-142) on a JSON
value: `None` gives 3, `int(value)` failures give 3, everything else is
clamped into `[1, 5]`. -/
def _clamp_priority (value : JVal) : Int :=
  match value with
  | .null => 3
  | .jint n => max 1 (min 5 n)
  | .jbool b => max 1 (min 5 (if b then (1 : Int) else 0))
  | .jstr s =>
    match parseIntAscii s with
    | some n => max 1 (min 5 n)
    | none => 3
  | .jarr _ => 3
  | .jobj _ => 3

/-- Canonicalization step of `_normalize_intent` after upper-casing
(keyword_planner_agent.py lines 150-159). -/
def intentFromUpper (v : String) : String :=
  if v = "KNOW" ∨ v = "COMPARE" ∨ v = "BUY" ∨ v = "NAVIGATIONAL" then v
  else if strContains v "NAV" then "NAVIGATIONAL"
  else if strContains v "COMP" then "COMPARE"
  else if strContains v "BUY" || strContains v "PURCHASE" || strContains v "CV" then "BUY"
  else "KNOW"

/-- `_normalize_intent` (keyword_planner_agent.py lines 145-159) on its
annotated `Optional[str]` domain: falsy input maps to `KNOW`, otherwise the
upper-cased string is canonicalized. -/
def _normalize_intent (value : Option String) : String :=
  match value with
  | none => "KNOW"
  | some s => if s = "" then "KNOW" else intentFromUpper s.toUpper

/-- `_normalize_intent` applied to a raw JSON field, as `_llm_plan` does:
Python first tests truthiness, then upper-cases `str(value)`. -/
def jNormalizeIntent (value : JVal) : String :=
  if falsy value then "KNOW" else intentFromUpper (pyStr value).toUpper

/-- Pydantic validation of an `Optional[str]` field: `None` and strings pass,
anything else raises a validation error. -/
def optStrField : JVal → Except String (Option String)
  | .null => .ok none
  | .jstr s => .ok (some s)
  | _ => .error "ValidationError: value is not a string"

/-- Truncation of `reason` (keyword_planner_agent.py lines 280-281): only a
string longer than `MAX_REASON_LEN` is cut. -/
def truncReason (r : JVal) : JVal :=
  match r with
  | .jstr s => if s.length > MAX_REASON_LEN then .jstr (s.take MAX_REASON_LEN) else .jstr s
  | other => other

/-- The item-normalization loop of `_llm_plan` (keyword_planner_agent.py
lines 266-291): non-dict entries and falsy keywords are skipped; a truthy
non-string keyword or a non-string category/reason raises out of the loop. -/
def buildItems : List JVal → Except String (List KeywordItem)
  | [] => .ok []
  | raw :: rest =>
    match raw with
    | .jobj f =>
      let kwv := jGetD f "keyword" .null
      if falsy kwv then buildItems rest
      else
        match kwv with
        | .jstr kw =>
          match optStrField (jGetD f "category" .null),
                optStrField (truncReason (jGetD f "reason" .null)) with
          | .ok category, .ok reason =>
            match buildItems rest with
            | .ok items =>
              .ok (⟨kw, jNormalizeIntent (jGetD f "intent" .null),
                    category, _clamp_priority (jGetD f "priority" .null), reason⟩ :: items)
            | .error e => .error e
          | .error e, _ => .error e
          | _, .error e => .error e
        | _ => .error "ValidationError: keyword is not a string"
    | _ => buildItems rest

/-- `_llm_plan` (keyword_planner_agent.py lines 166-302).  `data?` is the
parsed JSON of the LLM response; `none` stands for every earlier failure
(transport error, `None` content, JSON parse error), all of which raise. -/
def _llm_plan (seed_keyword : String) (data? : Option JVal) (max_items : Nat) :
    Except String KeywordPlan :=
  match data? with
  | none => .error "RuntimeError: transport failure, empty content, or JSON parse error"
  | some data =>
    match data with
    | .jobj fields =>
      let raw0 := jGetD fields "items" (.jarr [])
      let raw1 := if falsy raw0 then .jarr [] else raw0
      match raw1 with
      | .jarr xs =>
        match buildItems (xs.take max_items) with
        | .error e => .error e
        | .ok items =>
          if items.isEmpty then .error "RuntimeError: no valid items"
          else .ok ⟨seed_keyword, items⟩
      | _ => .error "RuntimeError: items is not a list"
    | _ => .error "AttributeError: response data is not an object"

/-- External-capability environment of the keyword planner: whether the
credential is configured, and the parsed LLM payload when a call succeeds. -/
structure PlannerEnv where
  hasApiKey : Bool
  llmData : Option JVal

/-- `plan_keywords` (keyword_planner_agent.py lines 309-335): no credential
means immediate fallback; with a credential the LLM plan is tried and any
error falls back. -/
def plan_keywords (env : PlannerEnv) (seed_keyword : String) (_site_profile : Option JVal) :
    KeywordPlan :=
  if !env.hasApiKey then _fallback_plan seed_keyword
  else
    match _llm_plan seed_keyword env.llmData MAX_ITEMS_DEFAULT with
    | .ok p => p
    | .error _ => _fallback_plan seed_keyword

/-! ## Site structures and HTML parsing
(`models/site_models.py`, `services/html_parser.py`, `agents/parser_agent.py`) -/

/-- `SerpResult` (models/serp_models.py). -/
structure SerpResult where
  rank : Nat
  title : String
  url : String
  snippet : Option String
deriving Repr, DecidableEq

/-- `SiteStructure` (models/site_models.py): one parsed page. -/
structure SiteStructure where
  url : String
  title : Option String
  meta_description : Option String
  h1_list : List String
  headings : List HeadingNode
  heading_tree : List HeadingNode
  main_text : String
  word_count : Nat
  term_freq : List (String × Nat)

/-- Word character test of `_tokenize` (html_parser.py line 73): Python's
`\w` modelled over ASCII alphanumerics and underscore, plus the hiragana,
katakana and CJK ranges the source regex names explicitly. -/
def isWordChar (c : Char) : Bool :=
  c.isAlphanum || c = '_' ||
  (0x3041 ≤ c.toNat && c.toNat ≤ 0x3093) ||
  (0x30A1 ≤ c.toNat && c.toNat ≤ 0x30F3) ||
  (0x4E00 ≤ c.toNat && c.toNat ≤ 0x9FA5)

/-- `_tokenize` (html_parser.py lines 68-75): non-word characters become
separators, empty pieces are dropped. -/
def _tokenize (text : String) : List String :=
  wsTokens [] (text.data.map (fun c => if isWordChar c then c else ' '))

/-- Collapse every whitespace run to a single space, as
`re.sub(r"\s+", " ", text)` does in `_extract_main_text`
(html_parser.py line 64). -/
def collapseWs : List Char → List Char
  | [] => []
  | [c] => if isPySpace c then [' '] else [c]
  | c :: d :: cs =>
    if isPySpace c then
      if isPySpace d then collapseWs (d :: cs)
      else ' ' :: collapseWs (d :: cs)
    else c :: collapseWs (d :: cs)

/-- Whitespace normalization of the extracted body text. -/
def normalizeWs (s : String) : String :=
  ⟨collapseWs s.data⟩

/-- One step of the `term_freq` accumulation loop (html_parser.py
lines 99-100). -/
def bumpFreq (m : List (String × Nat)) (t : String) : List (String × Nat) :=
  match alistGet m t with
  | some n => alistSet m t (n + 1)
  | none => m ++ [(t, 1)]

/-- The already-fetched document as BeautifulSoup exposes it to `parse_html`:
title tag text, meta description, `h1` texts, the `h1`..`h6` tags in document
order, and the script/style-stripped body text before whitespace
normalization.  The markup-parsing library itself is out of scope, so the
embedding starts from this view. -/
structure Soup where
  title : Option String
  metaDescription : Option String
  h1Texts : List String
  headingTags : List HeadingTag
  bodyText : String

/-- `parse_html` (html_parser.py lines 78-112). -/
def parse_html (url : String) (soup : Soup) : SiteStructure :=
  let title := soup.title.getD url
  let main_text := normalizeWs soup.bodyText
  let tokens := _tokenize main_text
  { url := url
    title := some title
    meta_description := soup.metaDescription
    h1_list := soup.h1Texts
    headings := _build_heading_nodes soup.headingTags
    heading_tree := _build_heading_tree soup.headingTags
    main_text := main_text
    word_count := tokens.length
    term_freq := tokens.foldl bumpFreq [] }

/-- The degenerate structure built in the `except` branch of
`parse_sites_from_serp` (parser_agent.py lines 48-56): title and snippet come
from the SERP reference, headings are empty, `word_count` is
`len((res.snippet or "").split())`, and `heading_tree`/`term_freq` keep their
model defaults. -/
def fallbackStructure (res : SerpResult) : SiteStructure :=
  { url := res.url
    title := some res.title
    meta_description := res.snippet
    h1_list := []
    headings := []
    heading_tree := []
    main_text := res.snippet.getD ""
    word_count := (pySplitWs (res.snippet.getD "")).length
    term_freq := [] }

/-- `parse_sites_from_serp` (parser_agent.py lines 14-64).  `fetchSoup`
models `fetch_html` plus markup parsing for one URL; `none` stands for any
fetch or parse exception, which the loop converts to the degenerate
structure. -/
def parse_sites_from_serp (fetchSoup : String → Option Soup)
    (serp_results : List SerpResult) : List SiteStructure :=
  serp_results.map (fun res =>
    match fetchSoup res.url with
    | some soup => parse_html res.url soup
    | none => fallbackStructure res)

/-! ## Structural metrics (`models/analysis_models.py`, `agents/analyzer_agent.py`) -/

/-- `PageStructureMetrics` (models/analysis_models.py). -/
structure PageStructureMetrics where
  url : String
  domain : String
  title_length : Nat
  meta_description_length : Nat
  h1_count : Nat
  h2_count : Nat
  h3_count : Nat
  word_count : Nat
  keyword_in_title : Bool
  keyword_in_h1 : Bool
  keyword_term_freq : Nat
deriving Repr, DecidableEq

/-- `KeywordStructureAnalysis` (models/analysis_models.py). -/
structure KeywordStructureAnalysis where
  keyword : String
  pages : List PageStructureMetrics
deriving Repr, DecidableEq

/-- `urlparse(url).netloc`, modelled for URLs whose authority part follows
a `//`: everything after the first `//` up to the next `/`, `?` or `#`;
a URL without `//` has an empty netloc. -/
def netlocOf (url : String) : String :=
  let afterAuthority :=
    match url.splitOn "://" with
    | [] => ""
    | [_] => if url.startsWith "//" then url.drop 2 else ""
    | _ :: rest => String.intercalate "://" rest
  afterAuthority.takeWhile (fun c => c ≠ '/' && c ≠ '?' && c ≠ '#')

namespace analyzer_agent

/-- `MAX_ANALYZE_KEYWORDS` (analyzer_agent.py line 18). -/
def MAX_ANALYZE_KEYWORDS : Nat := 1

/-- `MAX_PAGES_PER_KEYWORD` (analyzer_agent.py line 22). -/
def MAX_PAGES_PER_KEYWORD : Nat := 5

/-- `_count_term_freq` (analyzer_agent.py lines 29-33). -/
def _count_term_freq (text keyword : String) : Nat :=
  if text = "" then 0 else pyCountSub text keyword

/-- The per-page metric computation inside `analyze_keyword_structures`
(analyzer_agent.py lines 86-112). -/
def pageMetricsOf (keyword : String) (p : SiteStructure) : PageStructureMetrics :=
  let title := p.title.getD ""
  let meta_desc := p.meta_description.getD ""
  let h1_joined := String.intercalate " " p.h1_list
  { url := p.url
    domain := netlocOf p.url
    title_length := title.length
    meta_description_length := meta_desc.length
    h1_count := p.h1_list.length
    h2_count := (p.headings.filter (fun h => h.level = 2)).length
    h3_count := (p.headings.filter (fun h => h.level = 3)).length
    word_count := p.word_count
    keyword_in_title := strContains title keyword
    keyword_in_h1 := strContains h1_joined keyword
    keyword_term_freq := _count_term_freq p.main_text keyword }

/-- `analyze_keyword_structures` (analyzer_agent.py lines 64-114): the page
list is truncated to `MAX_PAGES_PER_KEYWORD` before aggregation. -/
def analyze_keyword_structures (keyword : String) (pages : List SiteStructure) :
    KeywordStructureAnalysis :=
  let target_pages :=
    if MAX_PAGES_PER_KEYWORD > 0 then pages.take MAX_PAGES_PER_KEYWORD else pages
  ⟨keyword, target_pages.map (pageMetricsOf keyword)⟩

/-- `_pick_keywords_for_analysis` (analyzer_agent.py lines 36-57); the
`top_keywords` attribute exists, so the `try` branch is taken. -/
def _pick_keywords_for_analysis (plan : KeywordPlan) (limit : Nat) : List KeywordItem :=
  plan.top_keywords limit

/-- `analyze_for_graph` (analyzer_agent.py lines 127-165): analyze the top
keywords, skipping those with no pages, truncating pages redundantly. -/
def analyze_for_graph (site_structures : List (String × List SiteStructure))
    (keyword_plan : Option KeywordPlan) : List (String × KeywordStructureAnalysis) :=
  match keyword_plan with
  | none => []
  | some plan =>
    (_pick_keywords_for_analysis plan MAX_ANALYZE_KEYWORDS).foldl
      (fun result kw_item =>
        let pages := (alistGet site_structures kw_item.keyword).getD []
        if pages.isEmpty then result
        else
          let limited :=
            if MAX_PAGES_PER_KEYWORD > 0 then pages.take MAX_PAGES_PER_KEYWORD else pages
          alistSet result kw_item.keyword (analyze_keyword_structures kw_item.keyword limited))
      []

end analyzer_agent

/-! ## Strategy synthesis (`models/strategy_models.py`, `agents/strategist_agent.py`) -/

/-- `KeywordStrategyItem` (models/strategy_models.py). -/
structure KeywordStrategyItem where
  keyword : String
  intent : Option String
  priority : Option Int
  recommended_content_type : Option String
  recommended_actions : List String
  notes : Option String
deriving Repr, DecidableEq

/-- `StrategySummary` (models/strategy_models.py). -/
structure StrategySummary where
  seed_keyword : String
  overview : String
  global_recommendations : List String
  keyword_strategies : List KeywordStrategyItem
deriving Repr, DecidableEq

/-- Pydantic validation of a required `str` field. -/
def jStrField : JVal → Except String String
  | .jstr s => .ok s
  | _ => .error "ValidationError: value is not a string"

/-- Pydantic validation of an `Optional[int]` field. -/
def optIntField : JVal → Except String (Option Int)
  | .null => .ok none
  | .jint n => .ok (some n)
  | _ => .error "ValidationError: value is not an int"

/-- Pydantic validation of a `List[str]` field. -/
def strListField : JVal → Except String (List String)
  | .jarr xs => xs.mapM jStrField
  | _ => .error "ValidationError: value is not a list of strings"

namespace strategist_agent

/-- The `base_overview` f-string of `build_strategy` (strategist_agent.py
lines 67-70). -/
def base_overview (seed_keyword : String) : String :=
  "seed_keyword=" ++ sq ++ seed_keyword ++ sq ++
    " を起点とした簡易戦略サマリです。OPENAI_API_KEY 未設定または LLM 呼び出しエラー時のフォールバックとして生成されています。"

/-- The no-plan fallback of `build_strategy` (strategist_agent.py
lines 73-83). -/
def fallbackNoPlan (seed_keyword : String) : StrategySummary :=
  { seed_keyword := seed_keyword
    overview := base_overview seed_keyword
    global_recommendations :=
      [ "まずはキーワードプランナーで seed_keyword 周辺の重要キーワードを設計してください。",
        "設計済みのキーワードを元に SERP 構造を解析し、その後に詳細な戦略を策定します。" ]
    keyword_strategies := [] }

/-- The no-credential fallback of `build_strategy` (strategist_agent.py
lines 86-112). -/
def fallbackNoKey (seed_keyword : String) (keyword_plan : KeywordPlan) : StrategySummary :=
  { seed_keyword := seed_keyword
    overview := base_overview seed_keyword
    global_recommendations :=
      [ "主要キーワードごとに専用のランディングページを用意することを検討してください。",
        "各ページでタイトル/H1/本文にキーワードを自然な形で含めつつ、ユーザーニーズを満たす内容にします。" ]
    keyword_strategies :=
      (keyword_plan.top_keywords 10).map (fun kw_item =>
        { keyword := kw_item.keyword
          intent := some kw_item.intent
          priority := some kw_item.priority
          recommended_content_type := some "カテゴリ or 記事ページ（フォールバック）"
          recommended_actions :=
            [ "このキーワード用のランディングページ有無を確認する",
              "タイトル・見出しにキーワードを自然に含める" ]
          notes := some "LLM 不使用のフォールバック結果です。" }) }

/-- The LLM-error fallback of `build_strategy` (strategist_agent.py
lines 213-241). -/
def fallbackLlmError (seed_keyword : String) (keyword_plan : KeywordPlan) : StrategySummary :=
  { seed_keyword := seed_keyword
    overview := base_overview seed_keyword ++ "（LLM 呼び出しエラー）"
    global_recommendations :=
      [ "主要キーワードごとに専用ページやコンテンツの整備状況を棚卸してください。",
        "SERP上位ページの構造を参考にしつつ、自社ならではの付加価値情報を追加します。" ]
    keyword_strategies :=
      (keyword_plan.top_keywords 10).map (fun kw_item =>
        { keyword := kw_item.keyword
          intent := some kw_item.intent
          priority := some kw_item.priority
          recommended_content_type := some "カテゴリ or 記事ページ（LLM失敗フォールバック）"
          recommended_actions :=
            [ "専用ページの有無を確認する",
              "タイトル/H1/本文でのキーワード出現を最適化する" ]
          notes := some "LLM 呼び出しエラー時のフォールバック結果です。" }) }

/-- The `keyword_strategies` mapping loop (strategist_agent.py
lines 194-204); a non-dict entry or an ill-typed field raises inside the
`try`. -/
def buildStrategyItems : List JVal → Except String (List KeywordStrategyItem)
  | [] => .ok []
  | item :: rest =>
    match item with
    | .jobj f => do
      let keyword ← jStrField (jGetD f "keyword" (.jstr ""))
      let intent ← optStrField (jGetD f "intent" .null)
      let priority ← optIntField (jGetD f "priority" .null)
      let rct ← optStrField (jGetD f "recommended_content_type" .null)
      let actions ← strListField
        (let a := jGetD f "recommended_actions" .null; if falsy a then .jarr [] else a)
      let notes ← optStrField (jGetD f "notes" .null)
      let tail ← buildStrategyItems rest
      .ok (⟨keyword, intent, priority, rct, actions, notes⟩ :: tail)
    | _ => .error "AttributeError: item is not a dict"

/-- The JSON-to-`StrategySummary` mapping of the `try` block
(strategist_agent.py lines 187-211); any failure falls to the `except`
branch. -/
def buildFromData (seed_keyword : String) (data : JVal) : Except String StrategySummary :=
  match data with
  | .jobj f => do
    let overview ← jStrField (jGetD f "overview" (.jstr ""))
    let recs ← strListField
      (let r := jGetD f "global_recommendations" .null; if falsy r then .jarr [] else r)
    let items ←
      match jGetD f "keyword_strategies" (.jarr []) with
      | .jarr xs => buildStrategyItems xs
      | _ => .error "TypeError: keyword_strategies is not iterable as dicts"
    .ok ⟨seed_keyword, overview, recs, items⟩
  | _ => .error "AttributeError: response data is not an object"

/-- External-capability environment of the strategist: the credential flag
and the parsed LLM payload (`none` models a transport error, empty content
or a `json.loads` failure). -/
structure StrategistEnv where
  hasApiKey : Bool
  llmData : Option JVal

/-- `build_strategy` (strategist_agent.py lines 54-241).  The analysis map
feeds only the prompt, so it does not influence the result shape. -/
def build_strategy (env : StrategistEnv) (seed_keyword : String)
    (keyword_plan : Option KeywordPlan)
    (_analysis : List (String × KeywordStructureAnalysis)) : StrategySummary :=
  match keyword_plan with
  | none => fallbackNoPlan seed_keyword
  | some plan =>
    if !env.hasApiKey then fallbackNoKey seed_keyword plan
    else
      match env.llmData with
      | none => fallbackLlmError seed_keyword plan
      | some data =>
        match buildFromData seed_keyword data with
        | .ok s => s
        | .error _ => fallbackLlmError seed_keyword plan

end strategist_agent

/-! ## Networked retrieval (`services/serp_client.py`, `services/crawler.py`) -/

/-- Outcome of one `requests.get` call: either the call raises, or a
response arrives with a status code and a body (`none` body = not valid
JSON). -/
inductive HttpOutcome where
  | raised
  | response (status : Nat) (body : Option JVal)

/-- Observable behaviour of one `fetch_serp_cse` run: the returned value (or
the propagated exception), the number of HTTP attempts made, and the number
of backoff sleeps performed. -/
structure CseRun where
  result : Except String (List SerpResult)
  attempts : Nat
  sleeps : Nat
deriving Repr

/-- The result-building loop of `fetch_serp_cse` (serp_client.py
lines 73-84): `rank` enumerates from 1, missing fields default to `""`, and
the loop breaks once `limit` results are collected (checked after each
append). -/
def buildSerpResults (limit : Nat) (count : Nat) (idx : Nat) :
    List JVal → Except String (List SerpResult)
  | [] => .ok []
  | item :: rest =>
    match item with
    | .jobj f => do
      let title ← jStrField (jGetD f "title" (.jstr ""))
      let url ← jStrField (jGetD f "link" (.jstr ""))
      let snippet ← optStrField (jGetD f "snippet" (.jstr ""))
      let r : SerpResult := ⟨idx, title, url, snippet⟩
      if count + 1 ≥ limit then .ok [r]
      else do
        let tail ← buildSerpResults limit (count + 1) (idx + 1) rest
        .ok (r :: tail)
    | _ => .error "AttributeError: item is not a dict"

/-- `fetch_serp_cse` (serp_client.py lines 30-87).  `env n` is the scripted
outcome of the `n`-th HTTP attempt; the source performs a single
`requests.get` with no retry and no sleep: a raised request or a non-2xx
status is logged and answered with an empty list. -/
def fetch_serp_cse (env : Nat → HttpOutcome) (_keyword : String) (limit : Nat) : CseRun :=
  match env 0 with
  | .raised => ⟨.ok [], 1, 0⟩
  | .response status body =>
    if 400 ≤ status then ⟨.ok [], 1, 0⟩
    else
      match body with
      | none => ⟨.error "JSONDecodeError", 1, 0⟩
      | some data =>
        match data with
        | .jobj f =>
          let items := (let v := jGetD f "items" .null; if falsy v then .jarr [] else v)
          match items with
          | .jarr [] => ⟨.ok [], 1, 0⟩
          | .jarr xs => ⟨buildSerpResults limit 0 1 xs, 1, 0⟩
          | _ => ⟨.error "TypeError: items is not iterable as dicts", 1, 0⟩
        | _ => ⟨.error "AttributeError: response data is not an object", 1, 0⟩

/-- Outcome of one `requests.get` for raw HTML. -/
inductive HtmlOutcome where
  | raised
  | response (status : Nat) (text : String)

/-- Observable behaviour of one `fetch_html` run. -/
structure FetchRun where
  result : Except String String
  attempts : Nat
deriving Repr

/-- `fetch_html` (crawler.py lines 6-16): a single GET, `raise_for_status`,
no retry; failures propagate as exceptions. -/
def fetch_html (env : Nat → HtmlOutcome) (_url : String) : FetchRun :=
  match env 0 with
  | .raised => ⟨.error "requests exception", 1⟩
  | .response status text =>
    if 400 ≤ status then ⟨.error "HTTPError", 1⟩ else ⟨.ok text, 1⟩

/-! ## Graph state and nodes (`app/graph/lg_state.py`, `app/graph/nodes.py`) -/

/-- `GraphState` (lg_state.py): a `TypedDict` with `total=False`, so every
key may be absent; absence is `none`. -/
structure GraphState where
  seed_keyword : Option String
  site_profile : Option JVal
  keyword_plan : Option KeywordPlan
  serp_results : Option (List (String × List SerpResult))
  site_structures : Option (List (String × List SiteStructure))
  analysis : Option (List (String × KeywordStructureAnalysis))
  current_node : Option String
  progress_messages : Option (List String)

namespace nodes

/-- `MAX_ANALYZE_KEYWORDS` (nodes.py line 37). -/
def MAX_ANALYZE_KEYWORDS : Nat := 2

/-- `MAX_SERP_RESULTS_PER_KEYWORD` (nodes.py line 38). -/
def MAX_SERP_RESULTS_PER_KEYWORD : Nat := 3

/-- `_log_progress` (nodes.py lines 41-55): append one formatted line and
move the current-node marker. -/
def _log_progress (state : GraphState) (node msg : String) : GraphState :=
  { state with
    progress_messages := some ((state.progress_messages.getD []) ++ ["[" ++ node ++ "] " ++ msg])
    current_node := some node }

/-- `keyword_planner_node` (nodes.py lines 62-90).  Callers always populate
`seed_keyword` (routes.py lines 109-112), so a missing key is read as `""`
here. -/
def keyword_planner_node (env : PlannerEnv) (state : GraphState) : GraphState :=
  let state := _log_progress state "keyword_planner" "start: generating keyword plan"
  let plan := plan_keywords env (state.seed_keyword.getD "") state.site_profile
  let state := { state with keyword_plan := some plan }
  _log_progress state "keyword_planner" "done: keyword plan generated"

/-- `serp_node` (nodes.py lines 97-157).  `serpFetch` models
`fetch_serp_for_keyword`; an exception from it is caught per keyword and
converted to an empty list (lines 142-144). -/
def serp_node (serpFetch : String → Nat → Except Unit (List SerpResult))
    (state : GraphState) : GraphState :=
  let state := _log_progress state "serp" "start: fetch SERP for top keywords"
  match state.keyword_plan with
  | none => _log_progress state "serp" "skipped: keyword_plan is None"
  | some keyword_plan =>
    let target_keywords := keyword_plan.top_keywords MAX_ANALYZE_KEYWORDS
    let serp_results := target_keywords.foldl
      (fun m kw_item =>
        let results :=
          match serpFetch kw_item.keyword MAX_SERP_RESULTS_PER_KEYWORD with
          | .ok rs => rs
          | .error _ => []
        alistSet m kw_item.keyword (results.take MAX_SERP_RESULTS_PER_KEYWORD)) []
    let state := { state with serp_results := some serp_results }
    _log_progress state "serp"
      ("done: fetched SERP for " ++ toString serp_results.length ++
        " keywords (each up to " ++ toString MAX_SERP_RESULTS_PER_KEYWORD ++ " results)")

/-- `parser_node` (nodes.py lines 164-197). -/
def parser_node (fetchSoup : String → Option Soup) (state : GraphState) : GraphState :=
  let state := _log_progress state "parser" "start: parsing HTML for SERP URLs"
  let serp_results := state.serp_results.getD []
  let site_structures := serp_results.foldl
    (fun m kv => alistSet m kv.1 (parse_sites_from_serp fetchSoup kv.2)) []
  let state := { state with site_structures := some site_structures }
  _log_progress state "parser" "done: parsed site structures"

/-- `analyzer_node` (nodes.py lines 204-241): skip on a missing plan or an
empty `site_structures` map, otherwise run `analyze_for_graph`. -/
def analyzer_node (state : GraphState) : GraphState :=
  let state := _log_progress state "analyzer" "start: analyzing structures"
  match state.keyword_plan with
  | none => _log_progress state "analyzer" "skipped: keyword_plan is None"
  | some plan =>
    let site_structures := state.site_structures.getD []
    if site_structures.isEmpty then
      _log_progress state "analyzer" "skipped: site_structures is empty"
    else
      let analysis := analyzer_agent.analyze_for_graph site_structures (some plan)
      let state := { state with analysis := some analysis }
      _log_progress state "analyzer" "done: analysis complete"

end nodes

/-! ## Sequential workflow (`app/graph/lg_workflow.py`, plus the import graph
it depends on) -/

/-- Module-level names defined in `app/graph/lg_state.py`. -/
def lg_state_defs : List String := ["GraphState"]

/-- Module-level names defined in `services/serp_client.py`. -/
def serp_client_defs : List String :=
  [ "logger", "GOOGLE_SEARCH_HTML_URL", "GOOGLE_CSE_URL", "DEFAULT_HEADERS",
    "fetch_serp_cse", "fetch_serp_for_keyword_html", "fetch_serp_google" ]

/-- Module-level names defined in `app/graph/nodes.py`. -/
def nodes_defs : List String :=
  [ "logger", "MAX_ANALYZE_KEYWORDS", "MAX_SERP_RESULTS_PER_KEYWORD",
    "_log_progress", "keyword_planner_node", "serp_node", "parser_node",
    "analyzer_node" ]

/-- Module-level names defined in `app/graph/lg_workflow.py`. -/
def lg_workflow_defs : List String := ["logger", "run_workflow"]

/-- A Python failure that escapes `run_workflow`. -/
inductive PyFailure where
  | importError (fromModule name : String)
  | attributeError (moduleName attr : String)
deriving Repr, DecidableEq

/-- Environment of one pipeline run: the planner credential/LLM outcome, the
SERP fetcher, and the document fetcher. -/
structure PipelineEnv where
  planner : PlannerEnv
  serpFetch : String → Nat → Except Unit (List SerpResult)
  fetchSoup : String → Option Soup

/-- Python attribute lookup on the `app.graph.nodes` module, returning the
node functions it actually defines. -/
def nodesAttr (env : PipelineEnv) (name : String) : Option (GraphState → GraphState) :=
  if name = "keyword_planner_node" then some (nodes.keyword_planner_node env.planner)
  else if name = "serp_node" then some (nodes.serp_node env.serpFetch)
  else if name = "parser_node" then some (nodes.parser_node env.fetchSoup)
  else if name = "analyzer_node" then some nodes.analyzer_node
  else none

/-- `run_workflow` (lg_workflow.py lines 13-51), together with the imports
its module performs when it loads: line 7 imports `create_initial_state`
from `app.graph.lg_state` (which does not define it), line 8 imports
`app.graph.nodes`, whose own import of `agents.serp_agent` pulls
`search_serp_mock` from `services.serp_client` (which does not define it
either).  Were both imports resolvable, the five node calls would run in
sequence on an initial state shaped like the dict of routes.py
lines 109-112, and line 43 would look up `nodes.strategist_node`. -/
def run_workflow (env : PipelineEnv) (seed_keyword : String) (site_profile : Option JVal) :
    Except PyFailure GraphState :=
  if !(lg_state_defs.contains "create_initial_state") then
    .error (.importError "app.graph.lg_state" "create_initial_state")
  else if !(serp_client_defs.contains "search_serp_mock") then
    .error (.importError "services.serp_client" "search_serp_mock")
  else
    let state : GraphState :=
      { seed_keyword := some seed_keyword, site_profile := site_profile,
        keyword_plan := none, serp_results := none, site_structures := none,
        analysis := none, current_node := none, progress_messages := none }
    let state := nodes.keyword_planner_node env.planner state
    let state := nodes.serp_node env.serpFetch state
    let state := nodes.parser_node env.fetchSoup state
    let state := nodes.analyzer_node state
    match nodesAttr env "strategist_node" with
    | some f => .ok (f state)
    | none => .error (.attributeError "app.graph.nodes" "strategist_node")

/-! ## Well-formedness of heading trees -/

mutual

/-- A heading node is well-formed when every child has a strictly greater
level than its own, recursively. -/
def nodeOk : HeadingNode → Bool
  | .mk lvl _ children => childrenOk lvl children

/-- All nodes of the list are well-formed and sit strictly below level
`lvl`. -/
def childrenOk (lvl : Nat) : List HeadingNode → Bool
  | [] => true
  | c :: cs => (decide (lvl < c.level)) && nodeOk c && childrenOk lvl cs

end

/-- Levels strictly decrease from the top of the ancestor stack downwards
(each pushed node sits strictly below the node it was pushed onto). -/
def stackDesc : List OpenNode → Bool
  | [] => true
  | [_] => true
  | a :: b :: rest => (decide (b.level < a.level)) && stackDesc (b :: rest)

/-! ## Concrete inputs used by the individual claim checks -/

/-- An LLM payload whose single item is unrelated to the seed keyword. -/
def envLLMplan : PlannerEnv :=
  ⟨true, some (.jobj [("items", .jarr [.jobj [("keyword", .jstr "bearing types")]])])⟩

/-- A SERP reference whose snippet is one whitespace-separated token but two
word-character tokens. -/
def cexRef : SerpResult := ⟨1, "Fast Motors", "http://example.com/m", some "fast-motors"⟩

/-- A scripted environment answering every HTTP attempt with status 429. -/
def env429 : Nat → HttpOutcome := fun _ => .response 429 (some (.jobj []))

/-- A one-item plan used to compare the strategist fallback tiers. -/
def cexPlan : KeywordPlan := ⟨"seed", [⟨"seed", "KNOW", none, 5, none⟩]⟩

/-- A state as the parser receives it when the locate stage produced an
empty source map: plan present, `serp_results` the empty map. -/
def skipState : GraphState :=
  { seed_keyword := some "bearing", site_profile := none,
    keyword_plan := some (_fallback_plan "bearing"),
    serp_results := some [], site_structures := none,
    analysis := none, current_node := some "serp",
    progress_messages := some [] }

/-! ## Claim theorems -/

/-- C3: the heading-tree builder follows the stack algorithm; on the level
sequence [1,3,2,1,2] it yields exactly 2 root nodes, and for every input
tag sequence (pathological orderings included) the parallel flat heading
list built by `_build_heading_nodes` has exactly one entry per heading
tag. -/
theorem heading_tree_roots_and_flat_length :
    (_build_heading_tree (tagsOfLevels [1, 3, 2, 1, 2])).length = 2 ∧
    (∀ tags : List HeadingTag, (_build_heading_nodes tags).length = tags.length) := by
  constructor
  · rfl
  · intro tags
    simp [_build_heading_nodes]

/-- C9: structural-metrics aggregation caps the metrics list at
`MAX_PAGES_PER_KEYWORD`, and truncation is idempotent: aggregating the
already-truncated page list gives the same analysis as aggregating the full
list. -/
theorem analyze_truncation_cap_and_idempotent :
    ∀ (keyword : String) (pages : List SiteStructure),
      (analyzer_agent.analyze_keyword_structures keyword pages).pages.length ≤
        analyzer_agent.MAX_PAGES_PER_KEYWORD ∧
      analyzer_agent.analyze_keyword_structures keyword
          (pages.take analyzer_agent.MAX_PAGES_PER_KEYWORD) =
        analyzer_agent.analyze_keyword_structures keyword pages := by
  intro keyword pages
  constructor
  · simp [analyzer_agent.analyze_keyword_structures, analyzer_agent.MAX_PAGES_PER_KEYWORD,
      List.length_take]
  · simp [analyzer_agent.analyze_keyword_structures, analyzer_agent.MAX_PAGES_PER_KEYWORD,
      List.take_take]

/-- C8: candidate-item normalization is total and in range: every priority
input (including out-of-range integers, strings, booleans, containers and
null) lands in `[1, 5]` with null mapped to 3, and every intent input is
normalized to one of the four canonical labels with null mapped to
`KNOW`. -/
theorem normalize_priority_intent_total :
    (∀ v : JVal, 1 ≤ _clamp_priority v ∧ _clamp_priority v ≤ 5) ∧
    _clamp_priority JVal.null = 3 ∧
    (∀ s : Option String,
      _normalize_intent s = "KNOW" ∨ _normalize_intent s = "COMPARE" ∨
      _normalize_intent s = "BUY" ∨ _normalize_intent s = "NAVIGATIONAL") ∧
    _normalize_intent none = "KNOW" ∧
    (∀ v : JVal,
      jNormalizeIntent v = "KNOW" ∨ jNormalizeIntent v = "COMPARE" ∨
      jNormalizeIntent v = "BUY" ∨ jNormalizeIntent v = "NAVIGATIONAL") := by
  have hFour : ∀ v : String,
      intentFromUpper v = "KNOW" ∨ intentFromUpper v = "COMPARE" ∨
      intentFromUpper v = "BUY" ∨ intentFromUpper v = "NAVIGATIONAL" := by
    intro v
    unfold intentFromUpper
    split_ifs with h1 h2 h3 h4
    · rcases h1 with h | h | h | h <;> simp [h]
    · simp
    · simp
    · simp
    · simp
  have hclamp : ∀ n : Int, 1 ≤ max 1 (min 5 n) ∧ max 1 (min 5 n) ≤ 5 := by
    intro n; omega
  refine ⟨?_, rfl, ?_, rfl, ?_⟩
  · intro v
    cases v with
    | null => exact ⟨by decide, by decide⟩
    | jint n => exact hclamp n
    | jstr s =>
      cases hp : parseIntAscii s with
      | none => simp only [_clamp_priority, hp]; exact ⟨by decide, by decide⟩
      | some n => simp only [_clamp_priority, hp]; exact hclamp n
    | jbool b => cases b <;> exact ⟨by decide, by decide⟩
    | jarr xs => simp only [_clamp_priority]; exact ⟨by decide, by decide⟩
    | jobj fs => simp only [_clamp_priority]; exact ⟨by decide, by decide⟩
  · intro s
    cases s with
    | none => exact Or.inl rfl
    | some str =>
      by_cases h : str = ""
      · simp only [_normalize_intent, h, if_true]
        exact Or.inl trivial
      · simp only [_normalize_intent, h, if_false]
        exact hFour str.toUpper
  · intro v
    by_cases h : falsy v
    · simp only [jNormalizeIntent, h, if_true]
      exact Or.inl trivial
    · simp only [jNormalizeIntent, h, if_false]
      exact hFour (pyStr v).toUpper

/-- C1: the full workflow cannot run to completion for any seed keyword:
loading `app.graph.lg_workflow` already fails because `create_initial_state`
is absent from `app.graph.lg_state` (and `search_serp_mock` is absent from
`services.serp_client`), and even past the imports the strategist step would
fail because `app.graph.nodes` defines no `strategist_node`; the endpoint's
`graph_app` is likewise undefined.  Every run therefore terminates with a
propagated failure instead of a result bundle. -/
theorem run_workflow_propagates_failure :
    ∀ (env : PipelineEnv) (seed_keyword : String) (site_profile : Option JVal),
      run_workflow env seed_keyword site_profile =
        .error (.importError "app.graph.lg_state" "create_initial_state") ∧
      nodesAttr env "strategist_node" = none ∧
      lg_workflow_defs.contains "graph_app" = false := by
  intro env seed_keyword site_profile
  exact ⟨rfl, rfl, rfl⟩

/-- C5 counterexample: on a script of consecutive HTTP 429 responses, the
retrieval primitive performs exactly one attempt and no backoff sleep and
returns an empty list, not the claimed three attempts with two sleeps and
`None`. -/
theorem retrieval_429_single_attempt_cex :
    (fetch_serp_cse env429 "pump" 10).attempts = 1 ∧
    (fetch_serp_cse env429 "pump" 10).sleeps = 0 ∧
    (fetch_serp_cse env429 "pump" 10).result = .ok [] ∧
    ¬((fetch_serp_cse env429 "pump" 10).attempts = 3 ∧
      (fetch_serp_cse env429 "pump" 10).sleeps = 2) := by
  refine ⟨rfl, rfl, rfl, ?_⟩
  intro h
  have h1 : (1 : Nat) = 3 := h.1
  exact absurd h1 (by decide)

/-- C5 amended: the retrieval primitives make exactly one attempt with no
backoff: `fetch_serp_cse` answers a raised request or an error status
(429 included) with an empty list, while `fetch_html` propagates its
failure as an exception after its single attempt. -/
theorem retrieval_single_attempt :
    ∀ (env : Nat → HttpOutcome) (envH : Nat → HtmlOutcome) (kw url : String) (limit : Nat),
      (fetch_serp_cse env kw limit).attempts = 1 ∧
      (fetch_serp_cse env kw limit).sleeps = 0 ∧
      (env 0 = .raised → (fetch_serp_cse env kw limit).result = .ok []) ∧
      (∀ status body, env 0 = .response status body → 400 ≤ status →
        (fetch_serp_cse env kw limit).result = .ok []) ∧
      (fetch_html envH url).attempts = 1 ∧
      (envH 0 = .raised → ∃ e, (fetch_html envH url).result = .error e) := by
  intro env envH kw url limit
  refine ⟨?_, ?_, ?_, ?_, ?_, ?_⟩
  · unfold fetch_serp_cse
    cases env 0 with
    | raised => rfl
    | response status body =>
      simp only
      split
      · rfl
      · cases body with
        | none => rfl
        | some data =>
          cases data <;> simp only
          case jobj f =>
            split <;> rfl
  · unfold fetch_serp_cse
    cases env 0 with
    | raised => rfl
    | response status body =>
      simp only
      split
      · rfl
      · cases body with
        | none => rfl
        | some data =>
          cases data <;> simp only
          case jobj f =>
            split <;> rfl
  · intro h
    unfold fetch_serp_cse
    rw [h]
  · intro status body h hs
    unfold fetch_serp_cse
    rw [h]
    simp only [if_pos hs]
  · unfold fetch_html
    cases envH 0 with
    | raised => rfl
    | response status text =>
      simp only
      split <;> rfl
  · intro h
    unfold fetch_html
    rw [h]
    exact ⟨_, rfl⟩

/-- C5 witness: the amended theorem applied at concrete scripts and
inputs. -/
theorem retrieval_single_attempt_witness :
    (fetch_serp_cse (fun _ => .raised) "k" 5).result = .ok [] ∧
    (fetch_html (fun _ => .raised) "u").attempts = 1 :=
  ⟨(retrieval_single_attempt (fun _ => .raised) (fun _ => .raised) "k" "u" 5).2.2.1 rfl,
    (retrieval_single_attempt (fun _ => .raised) (fun _ => .raised) "k" "u" 5).2.2.2.2.1⟩

/-- C4 counterexample: a degenerate structure built from the snippet
`fast-motors` carries that snippet as main text and `word_count = 1`, while
the repository tokenizer splits that same text into 2 tokens, so the
single-token-notion invariant of the claim fails on degenerate
structures. -/
theorem degenerate_word_count_cex :
    parse_sites_from_serp (fun _ => none) [cexRef] = [fallbackStructure cexRef] ∧
    (fallbackStructure cexRef).main_text = "fast-motors" ∧
    (fallbackStructure cexRef).word_count = 1 ∧
    (_tokenize (fallbackStructure cexRef).main_text).length = 2 ∧
    (fallbackStructure cexRef).word_count ≠
      (_tokenize (fallbackStructure cexRef).main_text).length := by
  refine ⟨rfl, rfl, rfl, by decide, by decide⟩

/-- C4 amended: fetching and structuring never fails and never drops a
source; a fetch or parse failure yields the degenerate structure built from
the reference title/snippet with empty heading lists, whose `word_count`
counts the whitespace-separated tokens of the snippet it carries as main
text (4 for `fast motors for sale`); a successfully parsed document's
`word_count` counts the word-character tokens of its main text. -/
theorem parse_word_count_amended :
    ∀ (fetchSoup : String → Option Soup) (rs : List SerpResult)
      (res : SerpResult) (url : String) (soup : Soup),
      (parse_sites_from_serp fetchSoup rs).length = rs.length ∧
      (fallbackStructure res).h1_list = [] ∧
      (fallbackStructure res).headings = [] ∧
      (fallbackStructure res).heading_tree = [] ∧
      (fallbackStructure res).title = some res.title ∧
      (fallbackStructure res).main_text = res.snippet.getD "" ∧
      (fallbackStructure res).word_count = (pySplitWs (res.snippet.getD "")).length ∧
      (fallbackStructure ⟨1, "t", "u", some "fast motors for sale"⟩).word_count = 4 ∧
      (parse_html url soup).word_count = (_tokenize (parse_html url soup).main_text).length := by
  intro fetchSoup rs res url soup
  refine ⟨?_, rfl, rfl, rfl, rfl, rfl, rfl, by decide, rfl⟩
  simp [parse_sites_from_serp]

/-- Helper: a successful `_llm_plan` result is never empty, because an empty
normalized item list raises before the plan is built. -/
theorem llm_plan_ok_items_ne_nil {seed : String} {d : Option JVal} {m : Nat}
    {p : KeywordPlan} (h : _llm_plan seed d m = .ok p) : p.items ≠ [] := by
  unfold _llm_plan at h
  cases d with
  | none => exact Except.noConfusion h
  | some data =>
    cases data with
    | jobj fields =>
      simp only at h
      split at h
      · split at h
        · exact Except.noConfusion h
        · split at h
          · exact Except.noConfusion h
          · rename_i items hne
            cases h
            simpa using hne
      · exact Except.noConfusion h
    | null => exact Except.noConfusion h
    | jint n => exact Except.noConfusion h
    | jstr s => exact Except.noConfusion h
    | jbool b => exact Except.noConfusion h
    | jarr xs => exact Except.noConfusion h

/-- C2 counterexample: with the generative strategy available and an LLM
payload whose only item is `bearing types`, `plan_keywords` for topic
`bearing` returns a non-empty plan that does not contain the topic itself,
refuting the claim for the generative strategy. -/
theorem plan_keywords_seed_missing_cex :
    (plan_keywords envLLMplan "bearing" none).items ≠ [] ∧
    ¬ ∃ it ∈ (plan_keywords envLLMplan "bearing" none).items, it.keyword = "bearing" := by
  exact ⟨by decide, by decide⟩

/-- C2 amended: `plan_keywords` never fails and always returns a non-empty
plan; the result is either the deterministic fallback plan or a successful
LLM plan, and it is the fallback plan that is guaranteed to contain the
topic itself at the plan's maximum priority — the generative strategy keeps
whatever terms the LLM returned, which need not include the topic. -/
theorem plan_keywords_never_fails_amended :
    ∀ (seed_keyword : String) (site_profile : Option JVal) (env : PlannerEnv),
      (plan_keywords env seed_keyword site_profile).items ≠ [] ∧
      (plan_keywords env seed_keyword site_profile = _fallback_plan seed_keyword ∨
        _llm_plan seed_keyword env.llmData MAX_ITEMS_DEFAULT =
          .ok (plan_keywords env seed_keyword site_profile)) ∧
      (∃ it ∈ (_fallback_plan seed_keyword).items,
        it.keyword = seed_keyword ∧
        ∀ it2 ∈ (_fallback_plan seed_keyword).items, it2.priority ≤ it.priority) := by
  intro seed_keyword site_profile env
  have hfb : (_fallback_plan seed_keyword).items ≠ [] := by
    simp [_fallback_plan]
  refine ⟨?_, ?_, ?_⟩
  · unfold plan_keywords
    cases hk : env.hasApiKey with
    | false => simpa using hfb
    | true =>
      simp only [Bool.not_true]
      cases hp : _llm_plan seed_keyword env.llmData MAX_ITEMS_DEFAULT with
      | ok p => simpa using llm_plan_ok_items_ne_nil hp
      | error e => simpa using hfb
  · unfold plan_keywords
    cases hk : env.hasApiKey with
    | false => exact Or.inl rfl
    | true =>
      simp only [Bool.not_true]
      cases hp : _llm_plan seed_keyword env.llmData MAX_ITEMS_DEFAULT with
      | ok p => exact Or.inr (by simp)
      | error e => exact Or.inl rfl
  · refine ⟨⟨seed_keyword, "KNOW", some "基礎・概要", 5, some "軸キーワードのため最優先"⟩,
      ?_, rfl, ?_⟩
    · exact List.mem_cons_self _ _
    · intro it2 h2
      simp only [_fallback_plan, List.mem_cons, List.not_mem_nil, or_false] at h2
      rcases h2 with rfl | rfl | rfl | rfl | rfl | rfl | rfl | rfl | rfl | rfl <;> norm_num

/-- C2 witness: the amended theorem applied at a concrete topic and
environment. -/
theorem plan_keywords_never_fails_amended_witness :
    (plan_keywords ⟨false, none⟩ "bearing" none).items ≠ [] :=
  (plan_keywords_never_fails_amended "bearing" none ⟨false, none⟩).1

/-- C6 counterexample: when the generative call fails, the strategist result
is not the tier-2 output with only an overview annotation: the global
recommendations, the per-keyword content type and the per-keyword actions
all differ between the two fallbacks. -/
theorem strategist_llm_error_texts_cex :
    (strategist_agent.build_strategy ⟨true, none⟩ "seed" (some cexPlan) []).global_recommendations ≠
      (strategist_agent.build_strategy ⟨false, none⟩ "seed" (some cexPlan) []).global_recommendations ∧
    (strategist_agent.build_strategy ⟨true, none⟩ "seed" (some cexPlan) []).keyword_strategies.map
        (fun i => i.recommended_content_type) ≠
      (strategist_agent.build_strategy ⟨false, none⟩ "seed" (some cexPlan) []).keyword_strategies.map
        (fun i => i.recommended_content_type) ∧
    (strategist_agent.build_strategy ⟨true, none⟩ "seed" (some cexPlan) []).keyword_strategies.map
        (fun i => i.recommended_actions) ≠
      (strategist_agent.build_strategy ⟨false, none⟩ "seed" (some cexPlan) []).keyword_strategies.map
        (fun i => i.recommended_actions) := by
  exact ⟨by decide, by decide, by decide⟩

/-- C6 amended: on a failing generative call the strategist falls back to a
deterministic output of the same shape as tier-2 — the same top-10 keyword
list with identical keywords, intents and priorities, a placeholder content
type and two generic actions per keyword, two global recommendations — with
the error annotation appended to the tier-2 overview, but with its own
wording for the placeholder, actions and global recommendations; a parse
failure of the LLM payload lands in the same fallback. -/
theorem strategist_llm_error_fallback_amended :
    ∀ (seed_keyword : String) (plan : KeywordPlan)
      (analysisA analysisB : List (String × KeywordStructureAnalysis)) (d : Option JVal),
      (strategist_agent.build_strategy ⟨true, none⟩ seed_keyword (some plan) analysisA).seed_keyword =
        (strategist_agent.build_strategy ⟨false, d⟩ seed_keyword (some plan) analysisB).seed_keyword ∧
      (strategist_agent.build_strategy ⟨true, none⟩ seed_keyword (some plan) analysisA).overview =
        (strategist_agent.build_strategy ⟨false, d⟩ seed_keyword (some plan) analysisB).overview ++
          "（LLM 呼び出しエラー）" ∧
      (strategist_agent.build_strategy ⟨true, none⟩ seed_keyword (some plan) analysisA).keyword_strategies.map
          (fun i => i.keyword) =
        (strategist_agent.build_strategy ⟨false, d⟩ seed_keyword (some plan) analysisB).keyword_strategies.map
          (fun i => i.keyword) ∧
      (strategist_agent.build_strategy ⟨true, none⟩ seed_keyword (some plan) analysisA).keyword_strategies.map
          (fun i => i.intent) =
        (strategist_agent.build_strategy ⟨false, d⟩ seed_keyword (some plan) analysisB).keyword_strategies.map
          (fun i => i.intent) ∧
      (strategist_agent.build_strategy ⟨true, none⟩ seed_keyword (some plan) analysisA).keyword_strategies.map
          (fun i => i.priority) =
        (strategist_agent.build_strategy ⟨false, d⟩ seed_keyword (some plan) analysisB).keyword_strategies.map
          (fun i => i.priority) ∧
      (strategist_agent.build_strategy ⟨true, none⟩ seed_keyword (some plan) analysisA).global_recommendations.length = 2 ∧
      (∀ i ∈ (strategist_agent.build_strategy ⟨true, none⟩ seed_keyword (some plan) analysisA).keyword_strategies,
        i.recommended_content_type = some "カテゴリ or 記事ページ（LLM失敗フォールバック）" ∧
        i.recommended_actions.length = 2) ∧
      (∀ data : JVal, (∃ e, strategist_agent.buildFromData seed_keyword data = .error e) →
        strategist_agent.build_strategy ⟨true, some data⟩ seed_keyword (some plan) analysisA =
          strategist_agent.build_strategy ⟨true, none⟩ seed_keyword (some plan) analysisA) := by
  intro seed_keyword plan analysisA analysisB d
  refine ⟨rfl, rfl, ?_, ?_, ?_, rfl, ?_, ?_⟩
  · simp [strategist_agent.build_strategy, strategist_agent.fallbackLlmError,
      strategist_agent.fallbackNoKey, List.map_map]
  · simp [strategist_agent.build_strategy, strategist_agent.fallbackLlmError,
      strategist_agent.fallbackNoKey, List.map_map]
  · simp [strategist_agent.build_strategy, strategist_agent.fallbackLlmError,
      strategist_agent.fallbackNoKey, List.map_map]
  · intro i hi
    rw [show (strategist_agent.build_strategy ⟨true, none⟩ seed_keyword (some plan) analysisA) =
        strategist_agent.fallbackLlmError seed_keyword plan from rfl] at hi
    simp only [strategist_agent.fallbackLlmError] at hi
    rw [List.mem_map] at hi
    obtain ⟨kw_item, _, rfl⟩ := hi
    exact ⟨rfl, rfl⟩
  · intro data ⟨e, he⟩
    simp only [strategist_agent.build_strategy, he]

/-- C6 witness: the amended theorem applied at a concrete plan and a payload
whose parse fails. -/
theorem strategist_llm_error_fallback_amended_witness :
    strategist_agent.build_strategy ⟨true, some (.jarr [])⟩ "seed" (some cexPlan) [] =
      strategist_agent.build_strategy ⟨true, none⟩ "seed" (some cexPlan) [] :=
  (strategist_llm_error_fallback_amended "seed" cexPlan [] [] none).2.2.2.2.2.2.2
    (.jarr []) ⟨_, rfl⟩

/-- C7: when the analyze stage finds an empty source-structure map (as after
a locate stage that produced no sources) and a present plan, it returns the
state unchanged except for the progress log — which gains a "skipped"
entry — and the current-node marker; the analysis key stays absent, which
every consumer reads as the empty map.  The embedded node is a total
function, so no exception is raised. -/
theorem analyzer_skip_on_empty :
    ∀ (s : GraphState) (plan : KeywordPlan) (fetchSoup : String → Option Soup),
      s.keyword_plan = some plan →
      s.serp_results.getD [] = [] →
      s.analysis = none →
      nodes.analyzer_node (nodes.parser_node fetchSoup s) =
        { s with
          site_structures := some []
          progress_messages := some ((s.progress_messages.getD []) ++
            ["[parser] start: parsing HTML for SERP URLs",
              "[parser] done: parsed site structures",
              "[analyzer] start: analyzing structures",
              "[analyzer] skipped: site_structures is empty"])
          current_node := some "analyzer" } ∧
      (nodes.analyzer_node (nodes.parser_node fetchSoup s)).analysis = s.analysis ∧
      (nodes.analyzer_node (nodes.parser_node fetchSoup s)).analysis.getD [] = [] := by
  intro s plan fetchSoup h1 h2 h3
  have hpars : nodes.parser_node fetchSoup s =
      { s with
        site_structures := some []
        progress_messages := some ((s.progress_messages.getD []) ++
          ["[parser] start: parsing HTML for SERP URLs",
            "[parser] done: parsed site structures"])
        current_node := some "parser" } := by
    unfold nodes.parser_node nodes._log_progress
    have hserp : ({ s with
        progress_messages := some ((s.progress_messages.getD []) ++
          ["[parser] start: parsing HTML for SERP URLs"])
        current_node := some "parser" } : GraphState).serp_results.getD [] = [] := h2
    simp only [hserp]
    simp
  have hmain : nodes.analyzer_node (nodes.parser_node fetchSoup s) =
      { s with
        site_structures := some []
        progress_messages := some ((s.progress_messages.getD []) ++
          ["[parser] start: parsing HTML for SERP URLs",
            "[parser] done: parsed site structures",
            "[analyzer] start: analyzing structures",
            "[analyzer] skipped: site_structures is empty"])
        current_node := some "analyzer" } := by
    rw [hpars]
    unfold nodes.analyzer_node nodes._log_progress
    simp only [h1]
    simp [List.append_assoc]
  refine ⟨hmain, ?_, ?_⟩
  · rw [hmain]
  · rw [hmain]
    show s.analysis.getD [] = []
    rw [h3]
    rfl

/-- C7 witness: the skip theorem applied to a concrete state in which every
term received an empty source list. -/
theorem analyzer_skip_on_empty_witness :
    (nodes.analyzer_node (nodes.parser_node (fun _ => none) skipState)).analysis = none ∧
    (nodes.analyzer_node (nodes.parser_node (fun _ => none) skipState)).analysis.getD [] = [] := by
  have h := analyzer_skip_on_empty skipState (_fallback_plan "bearing") (fun _ => none) rfl rfl rfl
  exact ⟨h.2.1.trans rfl, h.2.2⟩

/-- Helper: well-formedness of a child list extended on the right. -/
theorem childrenOk_append (lvl : Nat) (l : List HeadingNode) (c : HeadingNode) :
    childrenOk lvl (l ++ [c]) =
      (childrenOk lvl l && ((decide (lvl < c.level)) && nodeOk c)) := by
  induction l with
  | nil => simp [childrenOk]
  | cons a as ih => simp [childrenOk, ih, Bool.and_assoc]

/-- Helper: the tail of a level-descending stack is level-descending. -/
theorem stackDesc_tail {a : OpenNode} {rest : List OpenNode}
    (h : stackDesc (a :: rest) = true) : stackDesc rest = true := by
  cases rest with
  | nil => rfl
  | cons b rest' =>
    simp only [stackDesc, Bool.and_eq_true] at h
    exact h.2

/-- Helper: in a level-descending stack the second entry sits strictly below
the first. -/
theorem stackDesc_head_lt {a : OpenNode} {rest : List OpenNode}
    (h : stackDesc (a :: rest) = true) :
    ∀ o, rest.head? = some o → o.level < a.level := by
  intro o ho
  cases rest with
  | nil => simp at ho
  | cons b rest' =>
    simp only [List.head?_cons, Option.some.injEq] at ho
    subst ho
    simp only [stackDesc, Bool.and_eq_true, decide_eq_true_eq] at h
    exact h.1

/-- Helper: `stackDesc` only looks at levels, so replacing the head by an
entry of the same level preserves it. -/
theorem stackDesc_replace_head {a a' : OpenNode} {rest : List OpenNode}
    (hlvl : a'.level = a.level) (h : stackDesc (a :: rest) = true) :
    stackDesc (a' :: rest) = true := by
  cases rest with
  | nil => rfl
  | cons b rest' =>
    simp only [stackDesc, Bool.and_eq_true, decide_eq_true_eq, hlvl] at h ⊢
    exact h

/-- Invariant preservation through the popping loop: starting from a
well-formed pending node that sits strictly above the stack head, a
level-descending stack of well-formed open entries, and well-formed roots,
`popGEAux` returns a level-descending stack of well-formed entries whose
head (if any) sits strictly below `lvl`, and well-formed roots. -/
theorem popGEAux_inv (lvl : Nat) (pending : HeadingNode) (stack : List OpenNode)
    (roots : List HeadingNode)
    (hp : nodeOk pending = true)
    (hhd : ∀ o, stack.head? = some o → o.level < pending.level)
    (hdesc : stackDesc stack = true)
    (hch : ∀ o ∈ stack, childrenOk o.level o.children = true)
    (hroots : ∀ r ∈ roots, nodeOk r = true) :
    stackDesc (popGEAux lvl pending stack roots).1 = true ∧
    (∀ o ∈ (popGEAux lvl pending stack roots).1, childrenOk o.level o.children = true) ∧
    (∀ r ∈ (popGEAux lvl pending stack roots).2, nodeOk r = true) ∧
    (∀ o, (popGEAux lvl pending stack roots).1.head? = some o → o.level < lvl) := by
  induction stack generalizing pending roots with
  | nil =>
    refine ⟨rfl, by simp [popGEAux], ?_, by simp [popGEAux]⟩
    intro r hr
    simp only [popGEAux, List.mem_append, List.mem_singleton] at hr
    rcases hr with hr | rfl
    · exact hroots r hr
    · exact hp
  | cons top rest ih =>
    have htop' : childrenOk top.level (top.children ++ [pending]) = true := by
      rw [childrenOk_append]
      simp only [Bool.and_eq_true, decide_eq_true_eq]
      exact ⟨hch top (List.mem_cons_self _ _), hhd top rfl, hp⟩
    by_cases h : lvl ≤ top.level
    · have hstep : popGEAux lvl pending (top :: rest) roots =
          popGEAux lvl (closeNode { top with children := top.children ++ [pending] }) rest roots := by
        simp [popGEAux, h]
      rw [hstep]
      apply ih
      · simpa [nodeOk, closeNode] using htop'
      · intro o ho
        have := stackDesc_head_lt hdesc o ho
        simpa [closeNode] using this
      · exact stackDesc_tail hdesc
      · intro o ho
        exact hch o (List.mem_cons_of_mem _ ho)
      · exact hroots
    · have hstep : popGEAux lvl pending (top :: rest) roots =
          ({ top with children := top.children ++ [pending] } :: rest, roots) := by
        simp [popGEAux, h]
      rw [hstep]
      refine ⟨?_, ?_, hroots, ?_⟩
      · have hlvl : ({ top with children := top.children ++ [pending] } : OpenNode).level =
            top.level := rfl
        exact stackDesc_replace_head hlvl hdesc
      · intro o ho
        rcases List.mem_cons.mp ho with rfl | ho
        · exact htop'
        · exact hch o (List.mem_cons_of_mem _ ho)
      · intro o ho
        simp only [List.head?_cons, Option.some.injEq] at ho
        subst ho
        exact Nat.lt_of_not_le h

/-- Invariant preservation through one full pop (`popGE`). -/
theorem popGE_inv (lvl : Nat) (stack : List OpenNode) (roots : List HeadingNode)
    (hdesc : stackDesc stack = true)
    (hch : ∀ o ∈ stack, childrenOk o.level o.children = true)
    (hroots : ∀ r ∈ roots, nodeOk r = true) :
    stackDesc (popGE lvl stack roots).1 = true ∧
    (∀ o ∈ (popGE lvl stack roots).1, childrenOk o.level o.children = true) ∧
    (∀ r ∈ (popGE lvl stack roots).2, nodeOk r = true) ∧
    (∀ o, (popGE lvl stack roots).1.head? = some o → o.level < lvl) := by
  cases stack with
  | nil => exact ⟨rfl, by simp [popGE], by simpa [popGE] using hroots, by simp [popGE]⟩
  | cons top rest =>
    by_cases h : lvl ≤ top.level
    · have hstep : popGE lvl (top :: rest) roots = popGEAux lvl (closeNode top) rest roots := by
        simp [popGE, h]
      rw [hstep]
      apply popGEAux_inv
      · simpa [nodeOk, closeNode] using hch top (List.mem_cons_self _ _)
      · intro o ho
        have := stackDesc_head_lt hdesc o ho
        simpa [closeNode] using this
      · exact stackDesc_tail hdesc
      · intro o ho
        exact hch o (List.mem_cons_of_mem _ ho)
      · exact hroots
    · have hstep : popGE lvl (top :: rest) roots = (top :: rest, roots) := by
        simp [popGE, h]
      rw [hstep]
      refine ⟨hdesc, hch, hroots, ?_⟩
      intro o ho
      simp only [List.head?_cons, Option.some.injEq] at ho
      subst ho
      exact Nat.lt_of_not_le h

/-- Invariant preservation through one tag insertion. -/
theorem insertTag_inv (acc : List OpenNode × List HeadingNode) (t : HeadingTag)
    (hdesc : stackDesc acc.1 = true)
    (hch : ∀ o ∈ acc.1, childrenOk o.level o.children = true)
    (hroots : ∀ r ∈ acc.2, nodeOk r = true) :
    stackDesc (insertTag acc t).1 = true ∧
    (∀ o ∈ (insertTag acc t).1, childrenOk o.level o.children = true) ∧
    (∀ r ∈ (insertTag acc t).2, nodeOk r = true) := by
  obtain ⟨hd, hc, hr, hh⟩ := popGE_inv t.level acc.1 acc.2 hdesc hch hroots
  have hfst : (insertTag acc t).1 =
      ⟨t.level, t.text, []⟩ :: (popGE t.level acc.1 acc.2).1 := rfl
  have hsnd : (insertTag acc t).2 = (popGE t.level acc.1 acc.2).2 := rfl
  refine ⟨?_, ?_, ?_⟩
  · rw [hfst]
    cases hq : (popGE t.level acc.1 acc.2).1 with
    | nil => rfl
    | cons b rest =>
      have hb : b.level < t.level := by
        apply hh
        rw [hq]
        rfl
      simp only [stackDesc, Bool.and_eq_true, decide_eq_true_eq]
      have := hd
      rw [hq] at this
      exact ⟨hb, this⟩
  · rw [hfst]
    intro o ho
    rcases List.mem_cons.mp ho with rfl | ho
    · rfl
    · exact hc o ho
  · rw [hsnd]
    exact hr

/-- Invariant preservation through the whole tag fold. -/
theorem foldl_insertTag_inv (tags : List HeadingTag) (acc : List OpenNode × List HeadingNode)
    (hdesc : stackDesc acc.1 = true)
    (hch : ∀ o ∈ acc.1, childrenOk o.level o.children = true)
    (hroots : ∀ r ∈ acc.2, nodeOk r = true) :
    stackDesc (tags.foldl insertTag acc).1 = true ∧
    (∀ o ∈ (tags.foldl insertTag acc).1, childrenOk o.level o.children = true) ∧
    (∀ r ∈ (tags.foldl insertTag acc).2, nodeOk r = true) := by
  induction tags generalizing acc with
  | nil => exact ⟨hdesc, hch, hroots⟩
  | cons t ts ih =>
    obtain ⟨hd, hc, hr⟩ := insertTag_inv acc t hdesc hch hroots
    exact ih (insertTag acc t) hd hc hr

/-- C10: in every heading tree the builder produces — whatever the input
heading sequence, non-monotonic and skipped levels included — every child
node's level is strictly greater than its parent's level, recursively down
the tree (`nodeOk`). -/
theorem heading_tree_child_levels_strict :
    ∀ tags : List HeadingTag, ((_build_heading_tree tags).all nodeOk) = true := by
  intro tags
  obtain ⟨hd, hc, hr⟩ := foldl_insertTag_inv tags ([], []) rfl (by simp) (by simp)
  have htree : _build_heading_tree tags =
      (popGE 0 (tags.foldl insertTag ([], [])).1 (tags.foldl insertTag ([], [])).2).2 := by
    unfold _build_heading_tree
    rfl
  rw [htree, List.all_eq_true]
  intro r hr'
  exact (popGE_inv 0 _ _ hd hc hr).2.2.1 r hr'

end AioSiteAdvisor
